import Mathlib

/-!
Verification development for the Abstract API MCP server
(src/mcp_abstract_api/api_client.py and src/mcp_abstract_api/server.py).

The Python code is shallowly embedded: decoded JSON documents become the
inductive type `Json` (numbers are modelled as rationals; Python float
formatting is not reproduced), one HTTP response becomes the record
`Response` carrying the views the code reads from it (status, declared
content type, raw bytes, decoded text, and the result of the standard
JSON parser as an oracle field `parsed`, where `none` models a parse
failure), and the request/response normalization of
`AbstractClient._request` becomes the total function `handleResponse`.
Raised Python exceptions become the error side of `Except` with the
inductive `PyErr` separating `ValueError` from `AbstractAPIError`.
-/

namespace McpAbstract

/-- Model of a decoded JSON document (the value returned by the standard
JSON parser or fed by the remote service). Numbers are rationals. -/
inductive Json where
  | null : Json
  | bool : Bool → Json
  | num : ℚ → Json
  | str : String → Json
  | arr : List Json → Json
  | obj : List (String × Json) → Json

/-- Association-list lookup on the fields of a JSON object, modelling
Python dict indexing and membership on a decoded JSON object. -/
def fieldsLookup : List (String × Json) → String → Option Json
  | [], _ => none
  | (k, v) :: rest, key => if k = key then some v else fieldsLookup rest key

/-- Lookup of a key on a JSON value: `none` when the value is not an
object or the key is absent. -/
def jsonLookup : Json → String → Option Json
  | Json.obj fs, key => fieldsLookup fs key
  | _, _ => none

/-- Python dict assignment `d[k] = v` on the field list of a JSON object:
replaces the value in place when the key is present (keeping insertion
order, as Python dicts do), appends otherwise. -/
def setFields : List (String × Json) → String → Json → List (String × Json)
  | [], k, v => [(k, v)]
  | (k0, v0) :: rest, k, v =>
      if k0 = k then (k, v) :: rest else (k0, v0) :: setFields rest k v

/-- Python dict assignment lifted to `Json`; a non-object is unchanged
(unreachable in the embedded code paths). -/
def setField (j : Json) (key : String) (v : Json) : Json :=
  match j with
  | Json.obj fs => Json.obj (setFields fs key v)
  | other => other

/-- Python truthiness of a decoded JSON value: None, False, 0, empty
string, empty list and empty dict are falsy. -/
def Json.isTruthy : Json → Bool
  | Json.null => false
  | Json.bool b => b
  | Json.num q => if q = 0 then false else true
  | Json.str s => if s = "" then false else true
  | Json.arr [] => false
  | Json.arr (_ :: _) => true
  | Json.obj [] => false
  | Json.obj (_ :: _) => true

/-- Decode whether `pat` is a leading segment of `s` (character lists). -/
def listIsPre : List Char → List Char → Bool
  | [], _ => true
  | _ :: _, [] => false
  | p :: ps, c :: cs => p = c && listIsPre ps cs

/-- Decode whether `pat` occurs as a contiguous segment of `s`. -/
def listHasSub (pat : List Char) : List Char → Bool
  | [] => pat.isEmpty
  | c :: cs => listIsPre pat (c :: cs) || listHasSub pat cs

/-- Python substring membership test `pat in s`. -/
def containsSub (s pat : String) : Bool :=
  listHasSub pat.data s.data

/-- Python `s.startswith(pre)`. -/
def pyStartsWith (s pre : String) : Bool :=
  listIsPre pre.data s.data

/-- Model of Python `str` applied to an integer-valued or fractional
rational; Python float formatting is not reproduced (no claim depends
on the rendering of a non-integer number). -/
def pyNumStr (q : ℚ) : String :=
  if q.den = 1 then toString q.num else toString q

/-- A single-quote character for the repr model, built by code point to
keep the source free of quote literals. -/
def pyQuote : String := (Char.ofNat 39).toString

mutual

/-- Model of Python `str()` on a decoded JSON value: None, booleans and
numbers render as in Python; a string renders as itself; containers
render as their repr. -/
def pyStr : Json → String
  | Json.null => "None"
  | Json.bool b => if b then "True" else "False"
  | Json.num q => pyNumStr q
  | Json.str s => s
  | Json.arr xs => "[" ++ pyReprSeq xs ++ "]"
  | Json.obj fs => "\x7b" ++ pyReprFields fs ++ "\x7d"

/-- Model of Python `repr()` on a decoded JSON value (strings quoted). -/
def pyRepr : Json → String
  | Json.null => "None"
  | Json.bool b => if b then "True" else "False"
  | Json.num q => pyNumStr q
  | Json.str s => pyQuote ++ s ++ pyQuote
  | Json.arr xs => "[" ++ pyReprSeq xs ++ "]"
  | Json.obj fs => "\x7b" ++ pyReprFields fs ++ "\x7d"

/-- Comma-separated reprs of the elements of a list. -/
def pyReprSeq : List Json → String
  | [] => ""
  | [x] => pyRepr x
  | x :: y :: xs => pyRepr x ++ ", " ++ pyReprSeq (y :: xs)

/-- Comma-separated reprs of the fields of a dict. -/
def pyReprFields : List (String × Json) → String
  | [] => ""
  | [(k, v)] => pyQuote ++ k ++ pyQuote ++ ": " ++ pyRepr v
  | (k, v) :: f :: fs =>
      pyQuote ++ k ++ pyQuote ++ ": " ++ pyRepr v ++ ", " ++ pyReprFields (f :: fs)

end

/-- Python `d.get(k)` on an object field list: `None` when absent. -/
def pyGetJ (fs : List (String × Json)) (k : String) : Json :=
  (fieldsLookup fs k).getD Json.null

/-- Python `d.get(k, default)` on an object field list. -/
def pyGetDflt (fs : List (String × Json)) (k : String) (d : Json) : Json :=
  (fieldsLookup fs k).getD d

/-- Python `a or b`: `a` when truthy, else `b`. -/
def pyOr (a b : Json) : Json :=
  if a.isTruthy then a else b

/-- Model of the raised AbstractAPIError: status code, message (a Python
value, since the extracted message can be None or a non-string field),
optional decoded body as details, and the `from e` cause when the error
wraps a transport failure. -/
structure AbstractAPIErr where
  status : ℕ
  message : Json
  details : Option Json
  cause : Option String

/-- The exceptions the embedded code can raise. -/
inductive PyErr where
  | apiError : AbstractAPIErr → PyErr
  | valueError : String → PyErr
  | jsonDecodeError : PyErr
  | typeError : PyErr

/-- Successful outcome of `AbstractClient._request`: either raw bytes
(binary content) or a decoded JSON document. -/
inductive ReqResult where
  | bytes : List ℕ → ReqResult
  | json : Json → ReqResult

/-- One HTTP response, carrying the views the code reads from it. The
`parsed` field is the oracle for the standard JSON parser applied to
`text` (`none` models a parse failure); witnesses only instantiate it
consistently with `text`. -/
structure Response where
  status : ℕ
  contentType : String
  raw : List ℕ
  text : String
  parsed : Option Json

/-- Line 113 of api_client.py: the content type declares binary content
when it mentions image or application/octet-stream. -/
def isBinaryCT (ct : String) : Bool :=
  containsSub ct "image" || containsSub ct "application/octet-stream"

/-- Lines 138 to 145 of api_client.py: error-message extraction given a
decoded JSON object body. When the error field holds an object, its
message field (None when absent); otherwise the first truthy of the
message field, the title field, and the stringified error field, whose
absence defaults to the fixed fallback text. -/
def extractErrorMsgObj (fs : List (String × Json)) : Json :=
  match fieldsLookup fs "error" with
  | some (Json.obj efs) => pyGetJ efs "message"
  | _ =>
      pyOr (pyGetJ fs "message")
        (pyOr (pyGetJ fs "title")
          (Json.str (pyStr (pyGetDflt fs "error" (Json.str "Unknown error")))))

/-- Lines 136 to 145 of api_client.py: error-message extraction for a
non-2xx decoded body; a body that is not an object keeps the fixed
fallback text. -/
def extractErrorMsg : Json → Json
  | Json.obj fs => extractErrorMsgObj fs
  | _ => Json.str "Unknown error"

/-- The guard on line 141 of api_client.py: whether the error field of a
decoded object holds a dict. -/
def errorIsDict (fs : List (String × Json)) : Bool :=
  match fieldsLookup fs "error" with
  | some (Json.obj _) => true
  | _ => false

/-- Lines 136 to 146 of api_client.py: the status check performed on the
paths that decoded the body to a JSON value. -/
def statusCheck (status : ℕ) (result : Json) : Except PyErr ReqResult :=
  if 400 ≤ status then
    Except.error (PyErr.apiError ⟨status, extractErrorMsg result, some result, none⟩)
  else Except.ok (ReqResult.json result)

/-- Lines 122 to 133 of api_client.py: the fallback body sniffing for an
unrecognized content type. A body whose text opens with a brace or a
bracket is fed to the JSON parser, a parse failure or any other text is
wrapped as the result field of a fresh object. -/
def sniffBody (text : String) (parsed : Option Json) : Json :=
  if pyStartsWith text "\x7b" || pyStartsWith text "[" then
    match parsed with
    | some j => j
    | none => Json.obj [("result", Json.str text)]
  else Json.obj [("result", Json.str text)]

/-- Lines 109 to 148 of api_client.py: response normalization of
`AbstractClient._request`. Binary content returns the raw bytes at once
(before any status check); JSON content is parsed and then
status-checked; plain text returns a wrapped object at once (before any
status check); anything else is sniffed and then status-checked. -/
def handleResponse (r : Response) : Except PyErr ReqResult :=
  if isBinaryCT r.contentType then
    Except.ok (ReqResult.bytes r.raw)
  else if containsSub r.contentType "application/json" then
    match r.parsed with
    | none => Except.error PyErr.jsonDecodeError
    | some result => statusCheck r.status result
  else if containsSub r.contentType "text/plain" then
    Except.ok (ReqResult.json (Json.obj [("result", Json.str r.text)]))
  else
    statusCheck r.status (sniffBody r.text r.parsed)

/-- The decoded body `_request` computes on the paths that reach the
status check (JSON content type, or the fallback sniffing path). -/
def decodedBodyNoEarly (r : Response) : Option Json :=
  if containsSub r.contentType "application/json" then r.parsed
  else some (sniffBody r.text r.parsed)

/-- One attempt outcome at the transport level: either a response, or an
aiohttp ClientError whose payload is its string rendering. -/
inductive NetOutcome where
  | response : Response → NetOutcome
  | clientError : String → NetOutcome

/-- Lines 105 to 151 of api_client.py: `_request` over one transport
outcome. A ClientError is re-raised as AbstractAPIError with status 500,
a message describing the network failure, no details, and the original
failure preserved as the cause. -/
def doRequest : NetOutcome → Except PyErr ReqResult
  | NetOutcome.response r => handleResponse r
  | NetOutcome.clientError s =>
      Except.error (PyErr.apiError ⟨500, Json.str ("Network error: " ++ s), none, some s⟩)

/-- The request body of `_request` contains no loop: it consumes exactly
one transport outcome from the available sequence, whatever follows. -/
def requestAttemptsUsed (outcomes : List NetOutcome) : ℕ × Option (Except PyErr ReqResult) :=
  match outcomes with
  | [] => (0, none)
  | o :: _ => (1, some (doRequest o))

/-- The elif and else branches of lines 272 to 276 of api_client.py. -/
def getTimezoneCoords : Option ℚ → Option ℚ → Except PyErr (List (String × Json))
  | some la, some lo => Except.ok [("latitude", Json.num la), ("longitude", Json.num lo)]
  | _, _ =>
      Except.error (PyErr.valueError "Either location or latitude/longitude must be provided")

/-- Lines 268 to 276 of api_client.py: the query parameters built by
`AbstractClient.get_timezone`. A truthy location wins; otherwise both
coordinates must be present; otherwise a ValueError is raised before any
request is attempted. -/
def getTimezoneParams :
    Option String → Option ℚ → Option ℚ → Except PyErr (List (String × Json))
  | some l, la, lo =>
      if l = "" then getTimezoneCoords la lo else Except.ok [("location", Json.str l)]
  | none, la, lo => getTimezoneCoords la lo

/-- Number of network requests `get_timezone` issues for given arguments:
the request on line 278 of api_client.py runs only after the parameter
building succeeded, so a raised ValueError means zero requests. -/
def getTimezoneRequestCount (location : Option String) (la lo : Option ℚ) : ℕ :=
  match getTimezoneParams location la lo with
  | Except.ok _ => 1
  | Except.error _ => 0

/-- Line 373 of api_client.py: endpoint selection of
`AbstractClient.convert_currency`; a falsy date (absent or empty) picks
the live endpoint, anything else the historical one. -/
def convertCurrencyEndpoint (date : Option String) : String :=
  match date with
  | none => "live"
  | some d => if d = "" then "live" else "historical"

/-- Lines 371 to 375 of api_client.py: the query parameters of
`convert_currency`; the date parameter is added exactly when the date is
truthy. -/
def convertCurrencyParams (base target : String) (date : Option String) :
    List (String × Json) :=
  match date with
  | none => [("base", Json.str base), ("target", Json.str target)]
  | some d =>
      if d = "" then [("base", Json.str base), ("target", Json.str target)]
      else [("base", Json.str base), ("target", Json.str target), ("date", Json.str d)]

/-- Lines 381 to 386 of api_client.py: after the response body arrived,
`convert_currency` computes the converted amount locally. When the body
has an exchange_rates object containing the target currency with a
numeric rate, converted_amount and amount are written into the record in
that order (a non-numeric rate would raise a TypeError at the
multiplication in Python; no claim reaches that corner). -/
def convertCurrencyApply (amount : ℚ) (target : String) (data rates : Json) : Json :=
  match jsonLookup rates target with
  | some (Json.num rate) =>
      setField (setField data "converted_amount" (Json.num (amount * rate)))
        "amount" (Json.num amount)
  | _ => data

/-- The outer membership test of line 383 of api_client.py. -/
def convertCurrencyResult (amount : ℚ) (target : String) (data : Json) : Json :=
  match jsonLookup data "exchange_rates" with
  | some rates => convertCurrencyApply amount target data rates
  | none => data

/-- Lines 332 to 335 of api_client.py: the keyword arguments
`get_holidays` feeds to the HolidaysResponse constructor. A raw JSON
list is wrapped verbatim as the holidays field; an object is passed
through unchanged. -/
def holidaysResponseArgs (data : Json) : Json :=
  match data with
  | Json.arr xs => Json.obj [("holidays", Json.arr xs)]
  | other => other

/-- Composition of `_request` and the wrapping branch of `get_holidays`
over one transport outcome (a bytes result cannot occur for this JSON
endpoint and would raise a TypeError at the keyword expansion). -/
def getHolidaysHandle (o : NetOutcome) : Except PyErr Json :=
  match doRequest o with
  | Except.ok (ReqResult.json data) => Except.ok (holidaysResponseArgs data)
  | Except.ok (ReqResult.bytes _) => Except.error PyErr.typeError
  | Except.error e => Except.error e

/-- The aiohttp session underlying a client, reduced to the view the
embedded code manipulates: its total timeout. -/
structure SessionState where
  timeout : ℚ

/-- The mutable state of an AbstractClient (lines 38 to 51 of
api_client.py): the resolved api key, the configured timeout, and the
lazily created session. -/
structure ClientState where
  apiKey : Option String
  timeout : ℚ
  session : Option SessionState

/-- Lines 62 to 72 of api_client.py: `_ensure_session` creates the
session from the configured timeout when none exists. -/
def ensureSession (c : ClientState) : ClientState :=
  match c.session with
  | some _ => c
  | none => ⟨c.apiKey, c.timeout, some ⟨c.timeout⟩⟩

/-- Lines 74 to 78 of api_client.py: `close` releases the session when
one exists and resets the field to None. The boolean reports whether a
connection pool was actually closed by this call. -/
def closeClient (c : ClientState) : ClientState × Bool :=
  match c.session with
  | some _ => (⟨c.apiKey, c.timeout, none⟩, true)
  | none => (c, false)

/-- Lines 58 to 60 of api_client.py: `__aexit__` ignores the exception
information it receives and closes unconditionally. -/
def aexitClose (c : ClientState) (excInfo : Option String) : ClientState × Bool :=
  match excInfo with
  | _ => closeClient c

/-- Scoped acquisition (async with, lines 53 to 60 of api_client.py):
enter ensures the session, the body runs (and may raise, passed here as
the optional exception information), exit closes either way. -/
def scopedRun (c : ClientState) (excInfo : Option String) : ClientState × Bool :=
  aexitClose (ensureSession c) excInfo

/-- Lines 416 to 429 of api_client.py: the timeout manipulation of
`scrape_url`. The override to 60 runs only when a session already
exists; `_request` then ensures a session (created from the configured
timeout when none existed); the finally block restores the saved
original timeout on the session when one exists. Returns the timeout in
effect for the request, the final client state, and whether the request
failure propagates. -/
def scrapeTimeoutTrace (c : ClientState) (requestFails : Bool) : ℚ × ClientState × Bool :=
  let original := c.timeout
  let c1 : ClientState :=
    match c.session with
    | some _ => ⟨c.apiKey, c.timeout, some ⟨(60 : ℚ)⟩⟩
    | none => c
  let c2 := ensureSession c1
  let eff : ℚ :=
    match c2.session with
    | some s => s.timeout
    | none => c2.timeout
  let c3 : ClientState :=
    match c2.session with
    | some _ => ⟨c2.apiKey, c2.timeout, some ⟨original⟩⟩
    | none => c2
  (eff, c3, requestFails)

/-- Lines 450 to 479 of api_client.py: the timeout manipulation of
`generate_screenshot`, identical to the one in `scrape_url`. -/
def screenshotTimeoutTrace (c : ClientState) (requestFails : Bool) :
    ℚ × ClientState × Bool :=
  let original := c.timeout
  let c1 : ClientState :=
    match c.session with
    | some _ => ⟨c.apiKey, c.timeout, some ⟨(60 : ℚ)⟩⟩
    | none => c
  let c2 := ensureSession c1
  let eff : ℚ :=
    match c2.session with
    | some s => s.timeout
    | none => c2.timeout
  let c3 : ClientState :=
    match c2.session with
    | some _ => ⟨c2.apiKey, c2.timeout, some ⟨original⟩⟩
    | none => c2
  (eff, c3, requestFails)

/-- Model of Python str.upper on one character; the service names of
this repository are plain ASCII. -/
def charUpper (c : Char) : Char :=
  if 97 ≤ c.toNat ∧ c.toNat ≤ 122 then Char.ofNat (c.toNat - 32) else c

/-- Model of Python str.upper. -/
def strUpper (s : String) : String :=
  String.mk (s.data.map charUpper)

/-- Lines 40 to 50 of server.py: `_get_api_key_for_service` reads only
the environment key named after the service. The environment is passed
as a lookup function. -/
def serviceKeyName (service : String) : String :=
  "ABSTRACT_" ++ strUpper service ++ "_API_KEY"

/-- Environment read of the service-scoped key. -/
def getApiKeyForService (env : String → Option String) (service : String) :
    Option String :=
  env (serviceKeyName service)

/-- Lines 38 to 51 of api_client.py: `AbstractClient.__init__`; a falsy
api_key argument (None or empty) falls back to the generic
ABSTRACT_API_KEY environment value. -/
def clientInit (apiKey : Option String) (env : String → Option String) : ClientState :=
  let key : Option String :=
    match apiKey with
    | some k => if k = "" then env "ABSTRACT_API_KEY" else some k
    | none => env "ABSTRACT_API_KEY"
  ⟨key, 30, none⟩

/-- Association lookup in the per-service client cache. -/
def cacheLookup : List (String × ClientState) → String → Option ClientState
  | [], _ => none
  | (k, v) :: rest, key => if k = key then some v else cacheLookup rest key

/-- Result of one `get_client` resolution: the returned client, the
cache afterwards, and whether the missing-key warning was emitted. -/
structure GetClientResult where
  client : ClientState
  cache : List (String × ClientState)
  warned : Bool

/-- Lines 53 to 74 of server.py: `get_client`. A cached client is
returned as is; otherwise the scoped key is read, a warning is emitted
when it is falsy, and a freshly constructed client is cached and
returned. -/
def getClient (cache : List (String × ClientState)) (env : String → Option String)
    (service : String) : GetClientResult :=
  match cacheLookup cache service with
  | some c => ⟨c, cache, false⟩
  | none =>
      let apiKey := getApiKeyForService env service
      let warned : Bool :=
        match apiKey with
        | none => true
        | some k => if k = "" then true else false
      let c := clientInit apiKey env
      ⟨c, cache ++ [(service, c)], warned⟩

/-! Helper lemmas shared by the claim theorems. -/

/-- A non-empty string is truthy. -/
lemma isTruthy_str {m : String} (h : m ≠ "") : (Json.str m).isTruthy = true := by
  show (if m = "" then false else true) = true
  rw [if_neg h]

/-- Python or returns its left operand when that operand is truthy. -/
lemma pyOr_truthy {a b : Json} (h : a.isTruthy = true) : pyOr a b = a := by
  unfold pyOr
  exact if_pos h

/-- Python or returns its right operand when the left one is falsy. -/
lemma pyOr_falsy {a b : Json} (h : a.isTruthy = false) : pyOr a b = b := by
  unfold pyOr
  rw [if_neg]
  simp [h]

/-- Python None is falsy, so or skips it. -/
lemma pyOr_null (b : Json) : pyOr Json.null b = b := rfl

/-- When the error field does not hold a dict, the extraction takes the
or-chain branch of lines 142 to 144 of api_client.py. -/
lemma extract_not_dict (fs : List (String × Json)) (hE : errorIsDict fs = false) :
    extractErrorMsg (Json.obj fs) =
      pyOr (pyGetJ fs "message")
        (pyOr (pyGetJ fs "title")
          (Json.str (pyStr (pyGetDflt fs "error" (Json.str "Unknown error"))))) := by
  show extractErrorMsgObj fs = _
  unfold extractErrorMsgObj
  unfold errorIsDict at hE
  cases hL : fieldsLookup fs "error" with
  | none => rfl
  | some v =>
      rw [hL] at hE
      cases v with
      | obj efs => exact absurd hE (by simp)
      | null => rfl
      | bool b => rfl
      | num q => rfl
      | str s => rfl
      | arr xs => rfl

/-- Lookup after assignment on the assigned key. -/
lemma fieldsLookup_setFields_same (fs : List (String × Json)) (k : String) (v : Json) :
    fieldsLookup (setFields fs k v) k = some v := by
  induction fs with
  | nil => simp [setFields, fieldsLookup]
  | cons p rest ih =>
      obtain ⟨k0, v0⟩ := p
      by_cases h : k0 = k
      · simp [setFields, h, fieldsLookup]
      · simp [setFields, h, fieldsLookup, ih]

/-- Lookup after assignment on a different key. -/
lemma fieldsLookup_setFields_ne (fs : List (String × Json)) (k k2 : String) (v : Json)
    (h : k ≠ k2) :
    fieldsLookup (setFields fs k v) k2 = fieldsLookup fs k2 := by
  induction fs with
  | nil => simp [setFields, fieldsLookup, h]
  | cons p rest ih =>
      obtain ⟨k0, v0⟩ := p
      by_cases h0 : k0 = k
      · subst h0
        simp [setFields, fieldsLookup, h]
      · simp [setFields, h0, fieldsLookup, ih]

/-- A fresh cache entry is found again by a later lookup. -/
lemma cacheLookup_append_self (cache : List (String × ClientState)) (service : String)
    (c : ClientState) (h : cacheLookup cache service = none) :
    cacheLookup (cache ++ [(service, c)]) service = some c := by
  induction cache with
  | nil => simp [cacheLookup]
  | cons p rest ih =>
      obtain ⟨k, v⟩ := p
      by_cases hk : k = service
      · rw [show cacheLookup ((k, v) :: rest) service = some v from by
            simp [cacheLookup, hk]] at h
        exact Option.noConfusion h
      · have h' : cacheLookup rest service = none := by
          rw [show cacheLookup ((k, v) :: rest) service = cacheLookup rest service from by
            simp [cacheLookup, hk]] at h
          exact h
        simp [cacheLookup, hk, ih h']

/-! Claim theorems. -/

/-- C1, counterexample: the claim demands a structured error for every
response with status at least 400 regardless of declared content type,
including binary and plain-text bodies. The code returns binary content
(line 114 of api_client.py) and plain text (line 121) before the status
check on line 136 ever runs, so a 401 image body and a 500 plain-text
body both come back as successful results and no error is raised. -/
theorem c1_binary_and_plaintext_bypass_error_check :
    handleResponse ⟨401, "image/png", [137, 80, 78, 71], "", none⟩ =
      Except.ok (ReqResult.bytes [137, 80, 78, 71]) ∧
    handleResponse ⟨500, "text/plain", [], "server exploded", none⟩ =
      Except.ok (ReqResult.json (Json.obj [("result", Json.str "server exploded")])) ∧
    400 ≤ 401 ∧ 400 ≤ 500 := by
  exact ⟨rfl, rfl, by norm_num, by norm_num⟩

/-- C1, amended: on the paths that decode the body to a JSON value
(declared JSON content, or the fallback sniffing path for unrecognized
content types), a response status of at least 400 raises an
AbstractAPIError carrying the status code, the extracted message, and
the decoded body as details; binary and plain-text bodies are returned
before the status check and therefore never raise. -/
theorem c1_error_raised_on_decoded_paths (r : Response) (j : Json)
    (hb : isBinaryCT r.contentType = false)
    (ht : containsSub r.contentType "text/plain" = false)
    (hd : decodedBodyNoEarly r = some j)
    (hs : 400 ≤ r.status) :
    handleResponse r =
      Except.error (PyErr.apiError ⟨r.status, extractErrorMsg j, some j, none⟩) := by
  have hb' : ¬ (isBinaryCT r.contentType = true) := by simp [hb]
  by_cases hj : containsSub r.contentType "application/json" = true
  · have hd' : r.parsed = some j := by
      unfold decodedBodyNoEarly at hd
      rwa [if_pos hj] at hd
    unfold handleResponse
    rw [if_neg hb', if_pos hj, hd']
    show statusCheck r.status j = _
    unfold statusCheck
    rw [if_pos hs]
  · have ht' : ¬ (containsSub r.contentType "text/plain" = true) := by simp [ht]
    have hd' : sniffBody r.text r.parsed = j := by
      unfold decodedBodyNoEarly at hd
      rw [if_neg hj] at hd
      exact Option.some.inj hd
    unfold handleResponse
    rw [if_neg hb', if_neg hj, if_neg ht', hd']
    unfold statusCheck
    rw [if_pos hs]

/-- C1, witness: a 404 JSON body raises the structured error with the
status, the extracted message and the body as details. -/
theorem c1_error_raised_on_decoded_paths_witness :
    handleResponse
        ⟨404, "application/json", [], "",
          some (Json.obj [("message", Json.str "Not found")])⟩ =
      Except.error (PyErr.apiError
        ⟨404, Json.str "Not found",
          some (Json.obj [("message", Json.str "Not found")]), none⟩) := by
  exact c1_error_raised_on_decoded_paths
    ⟨404, "application/json", [], "", some (Json.obj [("message", Json.str "Not found")])⟩
    (Json.obj [("message", Json.str "Not found")]) rfl rfl rfl (by norm_num)

/-- C2: for a response with status at least 400 whose decoded body is a
JSON object, the raised message follows the precedence of lines 136 to
146 of api_client.py. First conjunct: the raised error carries exactly
the extracted message. Then, level by level: the nested error.message
field when the error field holds an object; otherwise a non-empty
top-level message field; otherwise a non-empty top-level title field;
otherwise the stringified top-level error field; otherwise the generic
fallback text. -/
theorem c2_error_message_precedence :
    (∀ (r : Response) (j : Json),
        isBinaryCT r.contentType = false →
        containsSub r.contentType "application/json" = true →
        r.parsed = some j →
        400 ≤ r.status →
        handleResponse r =
          Except.error (PyErr.apiError ⟨r.status, extractErrorMsg j, some j, none⟩)) ∧
    (∀ (fs efs : List (String × Json)) (m : Json),
        fieldsLookup fs "error" = some (Json.obj efs) →
        fieldsLookup efs "message" = some m →
        extractErrorMsg (Json.obj fs) = m) ∧
    (∀ (fs : List (String × Json)) (m : String),
        errorIsDict fs = false →
        fieldsLookup fs "message" = some (Json.str m) →
        m ≠ "" →
        extractErrorMsg (Json.obj fs) = Json.str m) ∧
    (∀ (fs : List (String × Json)) (t : String),
        errorIsDict fs = false →
        fieldsLookup fs "message" = none →
        fieldsLookup fs "title" = some (Json.str t) →
        t ≠ "" →
        extractErrorMsg (Json.obj fs) = Json.str t) ∧
    (∀ (fs : List (String × Json)) (v : Json),
        errorIsDict fs = false →
        fieldsLookup fs "message" = none →
        fieldsLookup fs "title" = none →
        fieldsLookup fs "error" = some v →
        extractErrorMsg (Json.obj fs) = Json.str (pyStr v)) ∧
    (∀ fs : List (String × Json),
        fieldsLookup fs "error" = none →
        fieldsLookup fs "message" = none →
        fieldsLookup fs "title" = none →
        extractErrorMsg (Json.obj fs) = Json.str "Unknown error") := by
  refine ⟨?link, ?nested, ?msg, ?title, ?strerr, ?fallback⟩
  case link =>
    intro r j hb hj hd hs
    have hb' : ¬ (isBinaryCT r.contentType = true) := by simp [hb]
    unfold handleResponse
    rw [if_neg hb', if_pos hj, hd]
    show statusCheck r.status j = _
    unfold statusCheck
    rw [if_pos hs]
  case nested =>
    intro fs efs m hE hm
    show extractErrorMsgObj fs = m
    unfold extractErrorMsgObj
    rw [hE]
    show pyGetJ efs "message" = m
    unfold pyGetJ
    rw [hm]
    rfl
  case msg =>
    intro fs m hE hm hne
    rw [extract_not_dict fs hE]
    have h1 : pyGetJ fs "message" = Json.str m := by
      unfold pyGetJ
      rw [hm]
      rfl
    rw [h1, pyOr_truthy (isTruthy_str hne)]
  case title =>
    intro fs t hE hm ht hne
    rw [extract_not_dict fs hE]
    have h1 : pyGetJ fs "message" = Json.null := by
      unfold pyGetJ
      rw [hm]
      rfl
    have h2 : pyGetJ fs "title" = Json.str t := by
      unfold pyGetJ
      rw [ht]
      rfl
    rw [h1, pyOr_null, h2, pyOr_truthy (isTruthy_str hne)]
  case strerr =>
    intro fs v hE hm ht he
    rw [extract_not_dict fs hE]
    have h1 : pyGetJ fs "message" = Json.null := by
      unfold pyGetJ
      rw [hm]
      rfl
    have h2 : pyGetJ fs "title" = Json.null := by
      unfold pyGetJ
      rw [ht]
      rfl
    have h3 : pyGetDflt fs "error" (Json.str "Unknown error") = v := by
      unfold pyGetDflt
      rw [he]
      rfl
    rw [h1, pyOr_null, h2, pyOr_null, h3]
  case fallback =>
    intro fs he hm ht
    have hE : errorIsDict fs = false := by
      unfold errorIsDict
      rw [he]
    rw [extract_not_dict fs hE]
    have h1 : pyGetJ fs "message" = Json.null := by
      unfold pyGetJ
      rw [hm]
      rfl
    have h2 : pyGetJ fs "title" = Json.null := by
      unfold pyGetJ
      rw [ht]
      rfl
    have h3 : pyGetDflt fs "error" (Json.str "Unknown error") = Json.str "Unknown error" := by
      unfold pyGetDflt
      rw [he]
      rfl
    rw [h1, pyOr_null, h2, pyOr_null, h3]
    rfl

/-- C2, witness: the two examples of the claim. A 401 response with a
nested error object yields status 401 and the nested message; a flat
body with a message field yields that message. -/
theorem c2_error_message_precedence_witness :
    handleResponse
        ⟨401, "application/json", [], "",
          some (Json.obj [("error", Json.obj [("message", Json.str "Invalid API key")])])⟩ =
      Except.error (PyErr.apiError
        ⟨401, Json.str "Invalid API key",
          some (Json.obj [("error", Json.obj [("message", Json.str "Invalid API key")])]),
          none⟩) ∧
    handleResponse
        ⟨429, "application/json", [], "",
          some (Json.obj [("message", Json.str "Rate limited")])⟩ =
      Except.error (PyErr.apiError
        ⟨429, Json.str "Rate limited",
          some (Json.obj [("message", Json.str "Rate limited")]), none⟩) ∧
    extractErrorMsg (Json.obj [("error", Json.obj [("message", Json.str "Invalid API key")])]) =
      Json.str "Invalid API key" ∧
    extractErrorMsg (Json.obj []) = Json.str "Unknown error" := by
  refine ⟨?_, ?_, ?_, ?_⟩
  · exact c2_error_message_precedence.1
      ⟨401, "application/json", [], "",
        some (Json.obj [("error", Json.obj [("message", Json.str "Invalid API key")])])⟩
      (Json.obj [("error", Json.obj [("message", Json.str "Invalid API key")])])
      rfl rfl rfl (by norm_num)
  · exact c2_error_message_precedence.1
      ⟨429, "application/json", [], "", some (Json.obj [("message", Json.str "Rate limited")])⟩
      (Json.obj [("message", Json.str "Rate limited")]) rfl rfl rfl (by norm_num)
  · exact c2_error_message_precedence.2.1
      [("error", Json.obj [("message", Json.str "Invalid API key")])]
      [("message", Json.str "Invalid API key")] (Json.str "Invalid API key") rfl rfl
  · exact c2_error_message_precedence.2.2.2.2.2 [] rfl rfl rfl

/-- C3: the claim says every call to scrape_url and generate_screenshot
applies the extended 60-unit timeout. The override on lines 419 to 420
(and 453 to 454) of api_client.py is guarded on an already existing
session, while `_request` creates a missing session from the configured
default timeout, so a fresh client (session not yet created, default
timeout 30) performs the scrape and screenshot request with timeout 30,
not 60 — contradicting the stated intent of the surrounding code. When
a session does exist, the extended timeout is applied and the original
one is restored afterwards, on the failing path too. -/
theorem c3_extended_timeout_skipped_on_fresh_client :
    (scrapeTimeoutTrace ⟨some "key", 30, none⟩ false).1 = 30 ∧
    (scrapeTimeoutTrace ⟨some "key", 30, none⟩ true).1 = 30 ∧
    (screenshotTimeoutTrace ⟨some "key", 30, none⟩ false).1 = 30 ∧
    (screenshotTimeoutTrace ⟨some "key", 30, none⟩ true).1 = 30 ∧
    (30 : ℚ) ≠ 60 ∧
    (scrapeTimeoutTrace ⟨some "key", 30, some ⟨30⟩⟩ false).1 = 60 ∧
    (scrapeTimeoutTrace ⟨some "key", 30, some ⟨30⟩⟩ true).1 = 60 ∧
    (scrapeTimeoutTrace ⟨some "key", 30, some ⟨30⟩⟩ true).2.1 =
      ⟨some "key", 30, some ⟨30⟩⟩ ∧
    (screenshotTimeoutTrace ⟨some "key", 30, some ⟨30⟩⟩ true).2.1 =
      ⟨some "key", 30, some ⟨30⟩⟩ := by
  exact ⟨rfl, rfl, rfl, rfl, by norm_num, rfl, rfl, rfl, rfl⟩

/-- C4: convert_currency selects the live endpoint exactly when no date
is given and the historical endpoint with the date as a parameter
otherwise; after the rate table arrives, the converted amount is
computed locally as amount times the target rate and written into the
record together with the amount, overwriting any value the remote
service might have sent for those fields. -/
theorem c4_convert_currency_local_computation :
    (∀ base target : String,
        convertCurrencyEndpoint none = "live" ∧
        convertCurrencyParams base target none =
          [("base", Json.str base), ("target", Json.str target)]) ∧
    (∀ (base target d : String), d ≠ "" →
        convertCurrencyEndpoint (some d) = "historical" ∧
        convertCurrencyParams base target (some d) =
          [("base", Json.str base), ("target", Json.str target), ("date", Json.str d)]) ∧
    (∀ (amount rate : ℚ) (target : String) (data rates : Json),
        jsonLookup data "exchange_rates" = some rates →
        jsonLookup rates target = some (Json.num rate) →
        jsonLookup (convertCurrencyResult amount target data) "converted_amount" =
            some (Json.num (amount * rate)) ∧
        jsonLookup (convertCurrencyResult amount target data) "amount" =
            some (Json.num amount)) := by
  refine ⟨?live, ?hist, ?conv⟩
  case live =>
    intro base target
    exact ⟨rfl, rfl⟩
  case hist =>
    intro base target d hd
    constructor
    · show (if d = "" then "live" else "historical") = "historical"
      rw [if_neg hd]
    · show (if d = "" then [("base", Json.str base), ("target", Json.str target)]
          else [("base", Json.str base), ("target", Json.str target), ("date", Json.str d)]) = _
      rw [if_neg hd]
  case conv =>
    intro amount rate target data rates h1 h2
    cases data with
    | obj fs =>
        have hres : convertCurrencyResult amount target (Json.obj fs) =
            Json.obj (setFields (setFields fs "converted_amount" (Json.num (amount * rate)))
              "amount" (Json.num amount)) := by
          unfold convertCurrencyResult
          rw [show jsonLookup (Json.obj fs) "exchange_rates" = some rates from h1]
          show convertCurrencyApply amount target (Json.obj fs) rates = _
          unfold convertCurrencyApply
          rw [h2]
          rfl
        rw [hres]
        constructor
        · show fieldsLookup _ "converted_amount" = _
          rw [fieldsLookup_setFields_ne _ "amount" "converted_amount" _ (by decide)]
          exact fieldsLookup_setFields_same fs "converted_amount" (Json.num (amount * rate))
        · show fieldsLookup _ "amount" = _
          exact fieldsLookup_setFields_same _ "amount" (Json.num amount)
    | null => exact absurd h1 (by simp [jsonLookup])
    | bool b => exact absurd h1 (by simp [jsonLookup])
    | num q => exact absurd h1 (by simp [jsonLookup])
    | str s => exact absurd h1 (by simp [jsonLookup])
    | arr xs => exact absurd h1 (by simp [jsonLookup])

/-- C4, witness: the example of the claim. Base USD, target EUR, amount
100, the live endpoint, a mocked rate table mapping EUR to 0.9, and a
body that even carries a bogus remotely supplied converted_amount: the
locally computed values 90 and 100 are attached. -/
theorem c4_convert_currency_local_computation_witness :
    convertCurrencyEndpoint none = "live" ∧
    jsonLookup
        (convertCurrencyResult 100 "EUR"
          (Json.obj [("base", Json.str "USD"), ("last_updated", Json.num 123),
            ("converted_amount", Json.num 999),
            ("exchange_rates", Json.obj [("EUR", Json.num 0.9)])]))
        "converted_amount" = some (Json.num 90) ∧
    jsonLookup
        (convertCurrencyResult 100 "EUR"
          (Json.obj [("base", Json.str "USD"), ("last_updated", Json.num 123),
            ("converted_amount", Json.num 999),
            ("exchange_rates", Json.obj [("EUR", Json.num 0.9)])]))
        "amount" = some (Json.num 100) := by
  have h := c4_convert_currency_local_computation.2.2 100 0.9 "EUR"
    (Json.obj [("base", Json.str "USD"), ("last_updated", Json.num 123),
      ("converted_amount", Json.num 999),
      ("exchange_rates", Json.obj [("EUR", Json.num 0.9)])])
    (Json.obj [("EUR", Json.num 0.9)]) rfl rfl
  have hq : (100 : ℚ) * 0.9 = 90 := by norm_num
  refine ⟨(c4_convert_currency_local_computation.1 "USD" "EUR").1, ?_, h.2⟩
  rw [← hq]
  exact h.1

/-- C5: a timezone lookup with no location and an incomplete coordinate
pair raises a ValueError (not the structured AbstractAPIError) on line
276 of api_client.py, before the request on line 278 runs, so zero
network calls are performed. -/
theorem c5_timezone_validation_before_request (la lo : Option ℚ)
    (h : la = none ∨ lo = none) :
    getTimezoneParams none la lo =
        Except.error (PyErr.valueError "Either location or latitude/longitude must be provided") ∧
    getTimezoneRequestCount none la lo = 0 ∧
    ∀ e : AbstractAPIErr, getTimezoneParams none la lo ≠ Except.error (PyErr.apiError e) := by
  have hp : getTimezoneParams none la lo =
      Except.error (PyErr.valueError "Either location or latitude/longitude must be provided") := by
    rcases h with rfl | rfl
    · cases lo <;> rfl
    · cases la <;> rfl
  refine ⟨hp, ?_, ?_⟩
  · unfold getTimezoneRequestCount
    rw [hp]
  · intro e he
    rw [hp] at he
    injection he with h'
    exact PyErr.noConfusion h'

/-- C5, witness: no location and no coordinates at all. -/
theorem c5_timezone_validation_before_request_witness :
    getTimezoneParams none none none =
        Except.error (PyErr.valueError "Either location or latitude/longitude must be provided") ∧
    getTimezoneRequestCount none none none = 0 := by
  have h := c5_timezone_validation_before_request none none (Or.inl rfl)
  exact ⟨h.1, h.2.1⟩

/-- C6: a transport-level ClientError is re-raised as AbstractAPIError
with status 500, a message describing the network failure, and the
original failure preserved as the cause (line 151 of api_client.py);
exactly one transport attempt is consumed whatever outcomes would
follow, so no retry happens. -/
theorem c6_network_error_wrapped_single_attempt :
    ∀ (s : String) (rest : List NetOutcome),
      requestAttemptsUsed (NetOutcome.clientError s :: rest) =
        (1, some (Except.error (PyErr.apiError
          ⟨500, Json.str ("Network error: " ++ s), none, some s⟩))) := by
  intro s rest
  rfl

/-- C7: a holidays response whose decoded body is a raw JSON list is
wrapped verbatim as the holidays field of the returned record (line 334
of api_client.py), and an object body is used to construct the record
directly (line 335). -/
theorem c7_holidays_list_wrapped :
    (∀ (r : Response) (xs : List Json),
        isBinaryCT r.contentType = false →
        containsSub r.contentType "application/json" = true →
        r.parsed = some (Json.arr xs) →
        r.status < 400 →
        getHolidaysHandle (NetOutcome.response r) =
          Except.ok (Json.obj [("holidays", Json.arr xs)])) ∧
    (∀ (r : Response) (fs : List (String × Json)),
        isBinaryCT r.contentType = false →
        containsSub r.contentType "application/json" = true →
        r.parsed = some (Json.obj fs) →
        r.status < 400 →
        getHolidaysHandle (NetOutcome.response r) = Except.ok (Json.obj fs)) ∧
    (∀ xs : List Json,
        jsonLookup (holidaysResponseArgs (Json.arr xs)) "holidays" = some (Json.arr xs)) := by
  refine ⟨?wrap, ?direct, ?look⟩
  case wrap =>
    intro r xs hb hj hd hs
    have hb' : ¬ (isBinaryCT r.contentType = true) := by simp [hb]
    have hok : handleResponse r = Except.ok (ReqResult.json (Json.arr xs)) := by
      unfold handleResponse
      rw [if_neg hb', if_pos hj, hd]
      show statusCheck r.status (Json.arr xs) = _
      unfold statusCheck
      rw [if_neg (by omega)]
    have hok2 : doRequest (NetOutcome.response r) = Except.ok (ReqResult.json (Json.arr xs)) := hok
    unfold getHolidaysHandle
    rw [hok2]
    rfl
  case direct =>
    intro r fs hb hj hd hs
    have hb' : ¬ (isBinaryCT r.contentType = true) := by simp [hb]
    have hok : handleResponse r = Except.ok (ReqResult.json (Json.obj fs)) := by
      unfold handleResponse
      rw [if_neg hb', if_pos hj, hd]
      show statusCheck r.status (Json.obj fs) = _
      unfold statusCheck
      rw [if_neg (by omega)]
    have hok2 : doRequest (NetOutcome.response r) = Except.ok (ReqResult.json (Json.obj fs)) := hok
    unfold getHolidaysHandle
    rw [hok2]
    rfl
  case look =>
    intro xs
    rfl

/-- C7, witness: a raw two-element list body is wrapped verbatim. -/
theorem c7_holidays_list_wrapped_witness :
    getHolidaysHandle (NetOutcome.response
        ⟨200, "application/json", [], "",
          some (Json.arr [Json.str "a", Json.str "b"])⟩) =
      Except.ok (Json.obj [("holidays", Json.arr [Json.str "a", Json.str "b"])]) := by
  exact c7_holidays_list_wrapped.1
    ⟨200, "application/json", [], "", some (Json.arr [Json.str "a", Json.str "b"])⟩
    [Json.str "a", Json.str "b"] rfl rfl rfl (by norm_num)

/-- C8, counterexample: the claim says resolving a client reads only the
environment key scoped to the service name and not the generic key. In
an environment where the scoped key ABSTRACT_EMAIL_API_KEY is absent but
the generic ABSTRACT_API_KEY is set, the resolved client for the email
service ends up holding the generic key: `get_client` passes None to the
constructor and `AbstractClient.__init__` (line 49 of api_client.py)
falls back to the generic environment key. The warning is still emitted
because the scoped key is missing. -/
theorem c8_generic_key_fallback_counterexample :
    (getClient []
        (fun k => if k = "ABSTRACT_API_KEY" then some "generic-key" else none)
        "email").client.apiKey = some "generic-key" ∧
    getApiKeyForService
        (fun k => if k = "ABSTRACT_API_KEY" then some "generic-key" else none)
        "email" = none ∧
    (getClient []
        (fun k => if k = "ABSTRACT_API_KEY" then some "generic-key" else none)
        "email").warned = true := by
  exact ⟨rfl, rfl, rfl⟩

/-- C8, amended: resolving a client for an uncached service name reads
the environment key scoped to that name; when it is absent a non-fatal
warning is emitted and a client is still constructed — its key falling
back to the generic ABSTRACT_API_KEY environment value inside the
constructor — cached under the name, and returned; a later resolution
for the same name returns the cached instance unchanged, without a new
warning. -/
theorem c8_client_cache_resolution (cache : List (String × ClientState))
    (env : String → Option String) (service : String)
    (hmiss : cacheLookup cache service = none)
    (hkey : getApiKeyForService env service = none) :
    (getClient cache env service).warned = true ∧
    (getClient cache env service).client = clientInit none env ∧
    (getClient cache env service).client.apiKey = env "ABSTRACT_API_KEY" ∧
    (getClient cache env service).cache =
      cache ++ [(service, (getClient cache env service).client)] ∧
    getClient ((getClient cache env service).cache) env service =
      ⟨(getClient cache env service).client, (getClient cache env service).cache, false⟩ := by
  have hres : getClient cache env service =
      ⟨clientInit none env, cache ++ [(service, clientInit none env)], true⟩ := by
    unfold getClient
    rw [hmiss]
    rw [show getApiKeyForService env service = none from hkey]
  refine ⟨?_, ?_, ?_, ?_, ?_⟩
  · rw [hres]
  · rw [hres]
  · rw [hres]
    show (clientInit none env).apiKey = env "ABSTRACT_API_KEY"
    unfold clientInit
    rfl
  · rw [hres]
  · rw [hres]
    unfold getClient
    rw [cacheLookup_append_self cache service (clientInit none env) hmiss]

/-- C8, witness: an empty cache and an entirely empty environment; the
resolution warns, constructs a keyless client, and a second resolution
returns the cached instance without warning. -/
theorem c8_client_cache_resolution_witness :
    (getClient [] (fun _ => none) "phone").warned = true ∧
    (getClient [] (fun _ => none) "phone").client.apiKey = none ∧
    getClient ((getClient [] (fun _ => none) "phone").cache) (fun _ => none) "phone" =
      ⟨(getClient [] (fun _ => none) "phone").client,
        (getClient [] (fun _ => none) "phone").cache, false⟩ := by
  have h := c8_client_cache_resolution [] (fun _ => none) "phone" rfl rfl
  exact ⟨h.1, h.2.2.1, h.2.2.2.2⟩

/-- C9: under scoped acquisition (enter ensures the session, exit calls
close while ignoring the exception information), the connection pool is
closed on exit both after normal completion and when an exception
escapes the scope; and close is idempotent: a second close performs no
pool close and leaves the client state unchanged. -/
theorem c9_scoped_close_and_idempotence :
    (∀ (c : ClientState) (excInfo : Option String),
        (scopedRun c excInfo).1.session = none ∧ (scopedRun c excInfo).2 = true) ∧
    (∀ c : ClientState,
        closeClient (closeClient c).1 = ((closeClient c).1, false)) := by
  constructor
  · intro c excInfo
    obtain ⟨k, t, s⟩ := c
    cases s <;> cases excInfo <;> exact ⟨rfl, rfl⟩
  · intro c
    obtain ⟨k, t, s⟩ := c
    cases s <;> rfl

/-- C10: when a non-empty location and a full coordinate pair are both
supplied to the timezone lookup, the location wins: only the location is
placed in the query parameters and the coordinates are silently ignored
(first branch of lines 270 to 271 of api_client.py). -/
theorem c10_location_overrides_coordinates (l : String) (la lo : ℚ) (h : l ≠ "") :
    getTimezoneParams (some l) (some la) (some lo) =
      Except.ok [("location", Json.str l)] := by
  show (if l = "" then getTimezoneCoords (some la) (some lo)
      else Except.ok [("location", Json.str l)]) = _
  rw [if_neg h]

/-- C10, witness: location New York together with both coordinates sends
only the location. -/
theorem c10_location_overrides_coordinates_witness :
    getTimezoneParams (some "New York") (some 40) (some (-74)) =
      Except.ok [("location", Json.str "New York")] := by
  exact c10_location_overrides_coordinates "New York" 40 (-74) (by decide)

end McpAbstract
